import Mathlib

/-!
Verification of the scheduling-configuration DSL of `bevy_ecs`
(`crates/bevy_ecs/src/schedule/{graph.rs, set.rs, config.rs}`).

The Rust code is shallowly embedded: every builder verb either returns
the transformed node (`Except.ok`) or signals the panic the Rust code
would raise (`Except.error`), with one `ScheduleError` constructor per
panic site.  Boxed systems and boxed conditions are opaque to this
layer, so they are represented by identifiers; a condition additionally
carries the `is_send` flag that `new_condition` asserts.
-/

set_option maxHeartbeats 1000000

namespace BevySchedule

/-- A boxed set identity (`BoxedSystemSet` in `set.rs`): the DSL layer
only consults `is_system_type`, `is_base` and type-erased equality, so
a set identity is an opaque id plus those two flags. -/
structure SetId where
  id : Nat
  isSystemType : Bool
  isBase : Bool
deriving DecidableEq, Repr

/-- A boxed condition (`BoxedCondition`): opaque id plus the `is_send`
flag that `new_condition` in `graph.rs` asserts at attach time. -/
structure Cond where
  id : Nat
  isSend : Bool
deriving DecidableEq, Repr

/-- `DependencyKind` from `graph_utils` as matched in `graph.rs`. -/
inductive DependencyKind where
  | before
  | after
deriving DecidableEq, Repr

/-- `Ambiguity` from `graph_utils` as matched in `graph.rs`:
`Check`, `IgnoreWithSet(Vec<BoxedSystemSet>)`, `IgnoreAll`. -/
inductive Ambiguity where
  | check
  | ignoreWithSet (sets : List SetId)
  | ignoreAll
deriving DecidableEq, Repr

/-- One constructor per panic site of the embedded Rust code. -/
inductive ScheduleError where
  /-- `in_set`: "adding arbitrary systems to a system type set is not allowed" -/
  | arbitrarySystemsToSystemTypeSet
  /-- `in_set`: "Systems cannot be added to 'base' system sets using
  'in_set'. Use 'in_base_set' instead." -/
  | baseSetViaInSet
  /-- `in_set`: "Base system sets cannot be added to other sets." -/
  | baseSetInOtherSet
  /-- `in_set`: the empty-message panic for a parent containing a system. -/
  | systemAsParentSet
  /-- `in_base_set`: "System type sets cannot be base sets." -/
  | systemTypeSetAsBaseSet
  /-- `in_base_set`: "Systems cannot be added to normal sets using
  'in_base_set'. Use 'in_set' instead." -/
  | normalSetViaInBaseSet
  /-- `run_if`: the `panic!()` on a `Collection` receiver. -/
  | runIfOnCollection
  /-- `distributive_run_if`: the `panic!()` on a non-`Collection` receiver. -/
  | distributiveRunIfOnNonCollection
  /-- `into_set`: the `panic!()` on a `Set` or `AnonymousSet` receiver. -/
  | intoSetOnSet
  /-- `chain`: the `panic!()` on a `System` or `Set` receiver. -/
  | chainOnAtom
  /-- `new_condition`: "Condition ... accesses thread-local resources." -/
  | conditionNotSend
deriving DecidableEq, Repr

/-- `GraphInfo` from `graph_utils`, parameterized by the node type
because its `sets` and `dependencies` fields hold graph nodes. -/
structure GraphInfoF (α : Type) where
  sets : List α
  baseSet : Option SetId
  dependencies : List (DependencyKind × α)
  ambiguousWith : Ambiguity
  addDefaultBaseSet : Bool
deriving Repr

/-- `SystemGraph` from `graph.rs`: the canonical IR.  The `graph_info`
record and the `graph_type` payload of each variant are inlined into
the four constructors. -/
inductive SystemGraph : Type where
  | system (info : GraphInfoF SystemGraph) (sys : Nat) (conditions : List Cond)
  | set (info : GraphInfoF SystemGraph) (s : SetId) (conditions : List Cond)
  | anonymousSet (info : GraphInfoF SystemGraph) (members : List SystemGraph)
      (chained : Bool) (conditions : List Cond)
  | collection (info : GraphInfoF SystemGraph) (members : List SystemGraph)
      (chained : Bool)

abbrev GraphInfo := GraphInfoF SystemGraph

/-- Modelled from the spec: `graph_utils` is not part of the provided
sources.  §4.2: the "system-origin" constructor of the graph-info
record; all fields defaulted, `add_default_base_set = true`. -/
def GraphInfo.system : GraphInfo :=
  ⟨[], none, [], .check, true⟩

/-- Modelled from the spec: `graph_utils` is not part of the provided
sources.  §4.2: the "set-origin" constructor of the graph-info record;
all fields defaulted, `add_default_base_set = false`. -/
def GraphInfo.system_set : GraphInfo :=
  ⟨[], none, [], .check, false⟩

namespace SystemGraph

/-- The `graph_info` field common to all variants. -/
def info : SystemGraph → GraphInfo
  | .system i _ _ => i
  | .set i _ _ => i
  | .anonymousSet i _ _ _ => i
  | .collection i _ _ => i

/-- Rebuild a node with its `graph_info` transformed (the mutators of
`graph.rs` reach only into `self.graph_info`). -/
def mapInfo (f : GraphInfo → GraphInfo) : SystemGraph → SystemGraph
  | .system i s c => .system (f i) s c
  | .set i s c => .set (f i) s c
  | .anonymousSet i m ch c => .anonymousSet (f i) m ch c
  | .collection i m ch => .collection (f i) m ch

/-- The node's own condition list (`Collection` carries none). -/
def conditions : SystemGraph → List Cond
  | .system _ _ c => c
  | .set _ _ c => c
  | .anonymousSet _ _ _ c => c
  | .collection _ _ _ => []

mutual

/-- `SystemGraph::contains_system` (graph.rs:42-50). -/
def contains_system : SystemGraph → Bool
  | .system _ _ _ => true
  | .set _ _ _ => false
  | .anonymousSet _ _ _ _ => false
  | .collection _ members _ => anyContainsSystem members

/-- `members.iter().any(Self::contains_system)` on the member list. -/
def anyContainsSystem : List SystemGraph → Bool
  | [] => false
  | g :: gs => contains_system g || anyContainsSystem gs

end

mutual

/-- `SystemGraph::contains_system_type_set` (graph.rs:52-60). -/
def contains_system_type_set : SystemGraph → Bool
  | .system _ _ _ => false
  | .anonymousSet _ _ _ _ => false
  | .set _ s _ => s.isSystemType
  | .collection _ members _ => anyContainsSystemTypeSet members

/-- `members.iter().any(Self::contains_system_type_set)`. -/
def anyContainsSystemTypeSet : List SystemGraph → Bool
  | [] => false
  | g :: gs => contains_system_type_set g || anyContainsSystemTypeSet gs

end

mutual

/-- `SystemGraph::contains_base_set` (graph.rs:62-70). -/
def contains_base_set : SystemGraph → Bool
  | .system _ _ _ => false
  | .anonymousSet _ _ _ _ => false
  | .set _ s _ => s.isBase
  | .collection _ members _ => anyContainsBaseSet members

/-- `members.iter().any(Self::contains_base_set)`. -/
def anyContainsBaseSet : List SystemGraph → Bool
  | [] => false
  | g :: gs => contains_base_set g || anyContainsBaseSet gs

end

end SystemGraph

/-- `new_condition` (graph.rs:346-355): asserts the condition system is
send, then boxes it. -/
def new_condition (c : Cond) : Except ScheduleError Cond :=
  if c.isSend then .ok c else .error .conditionNotSend

namespace SystemGraph

mutual

/-- `SystemGraph::distribute_run_condition` (graph.rs:72-85): push the
condition onto each non-`Collection` descendant's condition list,
recursing through `Collection` members. -/
def distribute_run_condition : SystemGraph → Cond → Except ScheduleError SystemGraph
  | .system i s conds, c =>
      (new_condition c).map fun c' => .system i s (conds ++ [c'])
  | .set i s conds, c =>
      (new_condition c).map fun c' => .set i s (conds ++ [c'])
  | .anonymousSet i m ch conds, c =>
      (new_condition c).map fun c' => .anonymousSet i m ch (conds ++ [c'])
  | .collection i members ch, c =>
      (distributeList members c).map fun ms => .collection i ms ch

/-- The `for member in members` loop of `distribute_run_condition`. -/
def distributeList : List SystemGraph → Cond → Except ScheduleError (List SystemGraph)
  | [], _ => .ok []
  | g :: gs, c => do
      let g' ← distribute_run_condition g c
      let gs' ← distributeList gs c
      .ok (g' :: gs')

end

/-- `insert_dependency` (graph.rs:36-40): push a `(kind, graph)`
dependency into the receiver's graph-info. -/
def insert_dependency (g : SystemGraph) (kind : DependencyKind)
    (dep : SystemGraph) : SystemGraph :=
  g.mapInfo fun i => { i with dependencies := i.dependencies ++ [(kind, dep)] }

/-- `before` (graph.rs:145-148). -/
def before (g : SystemGraph) (dep : SystemGraph) : SystemGraph :=
  g.insert_dependency .before dep

/-- `after` (graph.rs:150-153). -/
def after (g : SystemGraph) (dep : SystemGraph) : SystemGraph :=
  g.insert_dependency .after dep

/-- `in_set` (graph.rs:155-172): four asserts (in source order) on the
lifted parent and the receiver, then push the parent onto
`graph_info.sets`. -/
def in_set (g : SystemGraph) (parent : SystemGraph) :
    Except ScheduleError SystemGraph :=
  if parent.contains_system_type_set then .error .arbitrarySystemsToSystemTypeSet
  else if parent.contains_base_set then .error .baseSetViaInSet
  else if g.contains_base_set then .error .baseSetInOtherSet
  else if parent.contains_system then .error .systemAsParentSet
  else .ok (g.mapInfo fun i => { i with sets := i.sets ++ [parent] })

/-- `set_base_set` on the graph-info record.  Modelled from the spec:
`graph_utils` is not part of the provided sources.  §4.5: "set
`graph_info.base_set = Some(parent)` (replacing any prior)". -/
def set_base_set (g : SystemGraph) (s : SetId) : SystemGraph :=
  g.mapInfo fun i => { i with baseSet := some s }

/-- `in_base_set` (graph.rs:174-185): assert the set is not
system-type, assert it is base, then `set_base_set`. -/
def in_base_set (g : SystemGraph) (s : SetId) :
    Except ScheduleError SystemGraph :=
  if s.isSystemType then .error .systemTypeSetAsBaseSet
  else if !s.isBase then .error .normalSetViaInBaseSet
  else .ok (g.set_base_set s)

/-- `in_default_base_set` (graph.rs:187-190). -/
def in_default_base_set (g : SystemGraph) : SystemGraph :=
  g.mapInfo fun i => { i with addDefaultBaseSet := true }

/-- `no_default_base_set` (graph.rs:192-195). -/
def no_default_base_set (g : SystemGraph) : SystemGraph :=
  g.mapInfo fun i => { i with addDefaultBaseSet := false }

/-- `run_if` (graph.rs:197-207): push the (send-checked) condition onto
the receiver's own condition list; `panic!()` on a `Collection`. -/
def run_if (g : SystemGraph) (c : Cond) : Except ScheduleError SystemGraph :=
  match g with
  | .system i s conds =>
      (new_condition c).map fun c' => .system i s (conds ++ [c'])
  | .set i s conds =>
      (new_condition c).map fun c' => .set i s (conds ++ [c'])
  | .anonymousSet i m ch conds =>
      (new_condition c).map fun c' => .anonymousSet i m ch (conds ++ [c'])
  | .collection _ _ _ => .error .runIfOnCollection

/-- `distributive_run_if` (graph.rs:209-220): `panic!()` on anything
but a `Collection`, then `distribute_run_condition`. -/
def distributive_run_if (g : SystemGraph) (c : Cond) :
    Except ScheduleError SystemGraph :=
  match g with
  | .system _ _ _ => .error .distributiveRunIfOnNonCollection
  | .set _ _ _ => .error .distributiveRunIfOnNonCollection
  | .anonymousSet _ _ _ _ => .error .distributiveRunIfOnNonCollection
  | .collection _ _ _ => g.distribute_run_condition c

/-- `into_set` (graph.rs:222-242): wrap a `System` in a fresh
single-member `AnonymousSet`; promote a `Collection` in place;
`panic!()` on a `Set` or `AnonymousSet`. -/
def into_set : SystemGraph → Except ScheduleError SystemGraph
  | .system i s conds =>
      .ok (.anonymousSet GraphInfo.system_set [.system i s conds] false [])
  | .set _ _ _ => .error .intoSetOnSet
  | .anonymousSet _ _ _ _ => .error .intoSetOnSet
  | .collection i members chained =>
      .ok (.anonymousSet i members chained [])

/-- `chain` (graph.rs:244-253): set `chained = true` on an
`AnonymousSet` or `Collection`; `panic!()` on a `System` or `Set`. -/
def chain : SystemGraph → Except ScheduleError SystemGraph
  | .system _ _ _ => .error .chainOnAtom
  | .set _ _ _ => .error .chainOnAtom
  | .anonymousSet i m _ conds => .ok (.anonymousSet i m true conds)
  | .collection i m _ => .ok (.collection i m true)

end SystemGraph

/-- The free function `ambiguous_with` (graph.rs:357-367): the
transition function of the ambiguity state machine on a graph-info
record. -/
def ambiguous_with_info (i : GraphInfo) (s : SetId) : GraphInfo :=
  match i.ambiguousWith with
  | .check => { i with ambiguousWith := .ignoreWithSet [s] }
  | .ignoreWithSet xs => { i with ambiguousWith := .ignoreWithSet (xs ++ [s]) }
  | .ignoreAll => i

namespace SystemGraph

/-- `ambiguous_with` (graph.rs:255-258). -/
def ambiguous_with (g : SystemGraph) (s : SetId) : SystemGraph :=
  g.mapInfo fun i => ambiguous_with_info i s

/-- `ambiguous_with_all` (graph.rs:260-263). -/
def ambiguous_with_all (g : SystemGraph) : SystemGraph :=
  g.mapInfo fun i => { i with ambiguousWith := .ignoreAll }

end SystemGraph

/-- `SystemConfigs::distributive_run_if` (config.rs:495-497): the
implementation delegates to `run_if` on the wrapped graph —
`Self(self.0.run_if(condition))` — not to the graph-level
`distributive_run_if`. -/
def SystemConfigs.distributive_run_if (g : SystemGraph) (c : Cond) :
    Except ScheduleError SystemGraph :=
  g.run_if c

/-! ### The lifting layer (graph.rs:292-344, 369-396) -/

/-- An input shape of the polymorphic `IntoSystemGraph` surface: a raw
work-unit function, a pre-boxed work unit, a set value or boxed set
label, or a tuple of such inputs (the `impl_system_graph_collection`
macro, instantiated at arities 0 through 15, where each tuple element
is itself any `IntoSystemGraph`). -/
inductive LiftExpr where
  /-- A raw function implementing `IntoSystem` (graph.rs:292-305). -/
  | sysFn (id : Nat)
  /-- A `BoxedSystem<(), ()>` (graph.rs:307-317). -/
  | boxedSys (id : Nat)
  /-- A `BoxedSystemSet` (graph.rs:319-329). -/
  | boxedSet (s : SetId)
  /-- A concrete `SystemSet` value (graph.rs:331-344). -/
  | setVal (s : SetId)
  /-- A tuple of inputs (graph.rs:369-396). -/
  | tuple (elems : List LiftExpr)

mutual

/-- `into_graph` over every input shape.  A function or boxed system
becomes a `System` node with system-origin graph-info and no
conditions; a set label becomes a `Set` node with set-origin
graph-info; a tuple becomes a `Collection` with set-origin graph-info,
`chained = false`, and the element-wise lifted members. -/
def LiftExpr.into_graph : LiftExpr → SystemGraph
  | .sysFn id => .system GraphInfo.system id []
  | .boxedSys id => .system GraphInfo.system id []
  | .boxedSet s => .set GraphInfo.system_set s []
  | .setVal s => .set GraphInfo.system_set s []
  | .tuple elems => .collection GraphInfo.system_set (intoGraphList elems) false

/-- The `vec![$($sys.into_graph(),)*]` member list of the macro. -/
def intoGraphList : List LiftExpr → List SystemGraph
  | [] => []
  | e :: es => e.into_graph :: intoGraphList es

end

/-! ### The builder verbs as a single step relation -/

/-- One builder verb of §4.5, with its argument. -/
inductive Verb where
  | before (dep : SystemGraph)
  | after (dep : SystemGraph)
  | in_set (parent : SystemGraph)
  | in_base_set (s : SetId)
  | in_default_base_set
  | no_default_base_set
  | run_if (c : Cond)
  | distributive_run_if (c : Cond)
  | ambiguous_with (s : SetId)
  | ambiguous_with_all
  | chain
  | into_set

/-- Apply one builder verb to a node; `Except.error` is the panic. -/
def applyVerb (g : SystemGraph) : Verb → Except ScheduleError SystemGraph
  | .before dep => .ok (g.before dep)
  | .after dep => .ok (g.after dep)
  | .in_set parent => g.in_set parent
  | .in_base_set s => g.in_base_set s
  | .in_default_base_set => .ok g.in_default_base_set
  | .no_default_base_set => .ok g.no_default_base_set
  | .run_if c => g.run_if c
  | .distributive_run_if c => g.distributive_run_if c
  | .ambiguous_with s => .ok (g.ambiguous_with s)
  | .ambiguous_with_all => .ok g.ambiguous_with_all
  | .chain => g.chain
  | .into_set => g.into_set

/-! ### The identity layer (set.rs) -/

/-- `SystemTypeSet<T>` (set.rs:68): a zero-sized marker per work-unit
function type `T`. -/
structure SystemTypeSet (T : Type) where
  mk ::

/-- `PartialEq for SystemTypeSet<T>` (set.rs:97-103): always `true` —
"all systems of a given type are the same". -/
def SystemTypeSet.eqFn {T : Type} (_a _b : SystemTypeSet T) : Bool :=
  true

/-- `Hash for SystemTypeSet<T>` (set.rs:84-88): writes nothing to the
hasher, so the hasher state is returned unchanged. -/
def SystemTypeSet.hashFn {T : Type} (st : Nat) (_a : SystemTypeSet T) : Nat :=
  st

/-- `AnonymousSystemSet` (set.rs:122-124): the member names behind a
reference-counted allocation; `ptr` models the address of that
allocation, which equality and hashing use. -/
structure AnonymousSystemSet where
  system_names : List String
  ptr : Nat
deriving Repr

/-- `AnonymousSystemSet::new` (set.rs:126-132): `collect()` makes a
fresh allocation, modelled by drawing the next address from the
monotonic counter (spec §3) and returning the advanced counter. -/
def AnonymousSystemSet.new (names : List String) (ctr : Nat) :
    AnonymousSystemSet × Nat :=
  (⟨names, ctr⟩, ctr + 1)

/-- `PartialEq for AnonymousSystemSet` (set.rs:142-147):
`Arc::ptr_eq`, i.e. address equality only. -/
def AnonymousSystemSet.eqFn (a b : AnonymousSystemSet) : Bool :=
  a.ptr == b.ptr

/-- `Hash for AnonymousSystemSet` (set.rs:152-157): only the address
is fed to the hasher. -/
def AnonymousSystemSet.hashFn (st : Nat) (a : AnonymousSystemSet) : Nat :=
  st * 31 + a.ptr

/-- `Clone for AnonymousSystemSet` (set.rs:159-165): `Arc::clone`
shares the allocation, so the address is preserved. -/
def AnonymousSystemSet.clone (a : AnonymousSystemSet) : AnonymousSystemSet :=
  ⟨a.system_names, a.ptr⟩

/-! ## Helper lemmas -/

theorem intoGraphList_eq_map (es : List LiftExpr) :
    intoGraphList es = es.map LiftExpr.into_graph := by
  induction es with
  | nil => rfl
  | cons e es ih => simp [intoGraphList, ih]

theorem info_mapInfo (f : GraphInfo → GraphInfo) (g : SystemGraph) :
    (g.mapInfo f).info = f g.info := by
  cases g <;> rfl

/-! ## Claim theorems -/

/-- C4: `into_set()` on a Collection node returns an AnonymousSet node
carrying the same members in the same order, the same chained flag and
the same graph-info record, with an empty condition list; `into_set()`
on a Set or AnonymousSet node panics. -/
theorem into_set_collection_spec :
    (∀ (i : GraphInfo) (m : List SystemGraph) (ch : Bool),
        SystemGraph.into_set (.collection i m ch) = .ok (.anonymousSet i m ch []))
  ∧ (∀ (i : GraphInfo) (s : SetId) (conds : List Cond),
        SystemGraph.into_set (.set i s conds) = .error .intoSetOnSet)
  ∧ (∀ (i : GraphInfo) (m : List SystemGraph) (ch : Bool) (conds : List Cond),
        SystemGraph.into_set (.anonymousSet i m ch conds) = .error .intoSetOnSet) :=
  ⟨fun _ _ _ => rfl, fun _ _ _ => rfl, fun _ _ _ _ => rfl⟩

/-- C10: `into_set()` on a System node wraps that node unchanged — its
accumulated graph-info record and condition list intact — as the single
member of a new AnonymousSet whose own graph-info is the freshly
constructed set-origin record, whose chained flag is false, and whose
own condition list is empty. -/
theorem into_set_system_spec (i : GraphInfo) (sy : Nat) (conds : List Cond) :
    SystemGraph.into_set (.system i sy conds)
      = .ok (.anonymousSet GraphInfo.system_set [.system i sy conds] false []) :=
  rfl

/-- C9: `chain()` sets the chained flag on an AnonymousSet or
Collection, leaving members and their order (and conditions) unchanged,
and panics on a System or Set node; lifting `(A, B)` and chaining
yields `Collection{members=[System(A), System(B)], chained=true}`. -/
theorem chain_spec :
    (∀ (i : GraphInfo) (m : List SystemGraph) (ch : Bool) (conds : List Cond),
        SystemGraph.chain (.anonymousSet i m ch conds) = .ok (.anonymousSet i m true conds))
  ∧ (∀ (i : GraphInfo) (m : List SystemGraph) (ch : Bool),
        SystemGraph.chain (.collection i m ch) = .ok (.collection i m true))
  ∧ (∀ (i : GraphInfo) (sy : Nat) (conds : List Cond),
        SystemGraph.chain (.system i sy conds) = .error .chainOnAtom)
  ∧ (∀ (i : GraphInfo) (s : SetId) (conds : List Cond),
        SystemGraph.chain (.set i s conds) = .error .chainOnAtom)
  ∧ SystemGraph.chain (LiftExpr.into_graph (.tuple [.sysFn 0, .sysFn 1]))
      = .ok (.collection GraphInfo.system_set
          [.system GraphInfo.system 0 [], .system GraphInfo.system 1 []] true) :=
  ⟨fun _ _ _ _ => rfl, fun _ _ _ => rfl, fun _ _ _ => rfl, fun _ _ _ => rfl, rfl⟩

/-- C8: two system-type set identities for the same work-unit function
compare equal and leave any hasher state identical; two anonymous set
identities from distinct (counter-threaded) constructor calls compare
unequal even for identical name lists; a clone of an anonymous identity
compares equal to, and hashes identically to, the original. -/
theorem set_identity_spec :
    (∀ (T : Type) (a b : SystemTypeSet T) (st : Nat),
        SystemTypeSet.eqFn a b = true
      ∧ SystemTypeSet.hashFn st a = SystemTypeSet.hashFn st b)
  ∧ (∀ (names1 names2 : List String) (ctr : Nat),
        AnonymousSystemSet.eqFn (AnonymousSystemSet.new names1 ctr).1
          (AnonymousSystemSet.new names2 (AnonymousSystemSet.new names1 ctr).2).1 = false)
  ∧ (∀ a : AnonymousSystemSet,
        AnonymousSystemSet.eqFn a.clone a = true
      ∧ ∀ st : Nat, AnonymousSystemSet.hashFn st a.clone
          = AnonymousSystemSet.hashFn st a) := by
  refine ⟨fun T a b st => ⟨rfl, rfl⟩, fun names1 names2 ctr => ?_, fun a => ⟨?_, fun st => rfl⟩⟩
  · simp [AnonymousSystemSet.new, AnonymousSystemSet.eqFn]
  · simp [AnonymousSystemSet.clone, AnonymousSystemSet.eqFn]

/-- C2: for a send-safe condition `c`, `run_if(c)` panics if and only
if the receiver is a Collection; on a System, Set or AnonymousSet
receiver it appends `c` exactly once to that node's own condition list
and leaves all descendant members (hence their condition lists)
unchanged. -/
theorem run_if_spec (c : Cond) (hc : c.isSend = true) :
    (∀ (i : GraphInfo) (sy : Nat) (conds : List Cond),
        SystemGraph.run_if (.system i sy conds) c = .ok (.system i sy (conds ++ [c])))
  ∧ (∀ (i : GraphInfo) (s : SetId) (conds : List Cond),
        SystemGraph.run_if (.set i s conds) c = .ok (.set i s (conds ++ [c])))
  ∧ (∀ (i : GraphInfo) (m : List SystemGraph) (ch : Bool) (conds : List Cond),
        SystemGraph.run_if (.anonymousSet i m ch conds) c
          = .ok (.anonymousSet i m ch (conds ++ [c])))
  ∧ (∀ (i : GraphInfo) (m : List SystemGraph) (ch : Bool),
        SystemGraph.run_if (.collection i m ch) c = .error .runIfOnCollection)
  ∧ (∀ g : SystemGraph, (∃ e, g.run_if c = .error e)
        ↔ ∃ i m ch, g = .collection i m ch) := by
  refine ⟨?_, ?_, ?_, ?_, ?_⟩
  · intro i sy conds
    simp [SystemGraph.run_if, new_condition, hc, Except.map]
  · intro i s conds
    simp [SystemGraph.run_if, new_condition, hc, Except.map]
  · intro i m ch conds
    simp [SystemGraph.run_if, new_condition, hc, Except.map]
  · intro i m ch
    rfl
  · intro g
    cases g <;> simp [SystemGraph.run_if, new_condition, hc, Except.map]

/-- Witness for `run_if_spec` at a concrete send-safe condition and a
concrete empty Collection. -/
theorem run_if_spec_witness :
    SystemGraph.run_if (.collection GraphInfo.system_set [] false) ⟨0, true⟩
      = .error .runIfOnCollection :=
  (run_if_spec ⟨0, true⟩ rfl).2.2.2.1 GraphInfo.system_set [] false

/-- C5: `in_set(parent)` panics exactly when the lifted parent contains
a system-type set, the parent contains a base set, the receiver
contains a base set, or the parent contains a system; otherwise it
appends the lifted parent to the receiver's `graph_info.sets`,
preserving all earlier entries.  In the base-set-receiver case (with a
parent passing its own two checks, as in the spec's scenario of a
base set added to a plain named set) the panic is the
`baseSetInOtherSet` one, whose source message is
"Base system sets cannot be added to other sets." -/
theorem in_set_spec (g parent : SystemGraph) :
    ((∃ e, g.in_set parent = .error e)
      ↔ (parent.contains_system_type_set || parent.contains_base_set
          || g.contains_base_set || parent.contains_system) = true)
  ∧ ((parent.contains_system_type_set || parent.contains_base_set
        || g.contains_base_set || parent.contains_system) = false →
      g.in_set parent = .ok (g.mapInfo fun i => { i with sets := i.sets ++ [parent] }))
  ∧ (parent.contains_system_type_set = false →
      parent.contains_base_set = false →
      g.contains_base_set = true →
      g.in_set parent = .error .baseSetInOtherSet) := by
  refine ⟨?_, ?_, ?_⟩
  · simp only [SystemGraph.in_set]
    cases h1 : parent.contains_system_type_set <;>
      cases h2 : parent.contains_base_set <;>
        cases h3 : g.contains_base_set <;>
          cases h4 : parent.contains_system <;> simp
  · intro h
    simp only [Bool.or_eq_false_iff] at h
    obtain ⟨⟨⟨h1, h2⟩, h3⟩, h4⟩ := h
    simp [SystemGraph.in_set, h1, h2, h3, h4]
  · intro h1 h2 h3
    simp [SystemGraph.in_set, h1, h2, h3]

/-- Witness for `in_set_spec`: a base named set added to a plain named
set fails with the `baseSetInOtherSet` panic. -/
theorem in_set_spec_witness :
    SystemGraph.in_set (.set GraphInfo.system_set ⟨0, false, true⟩ [])
        (.set GraphInfo.system_set ⟨1, false, false⟩ [])
      = .error .baseSetInOtherSet :=
  (in_set_spec (.set GraphInfo.system_set ⟨0, false, true⟩ [])
      (.set GraphInfo.system_set ⟨1, false, false⟩ [])).2.2 rfl rfl rfl

/-- C7: `in_base_set(set)` panics unless `set.is_base()` holds and
`set.is_system_type()` does not; on success it makes `set` the node's
single base set, and a second call replaces the first base set rather
than accumulating: two successive calls equal the second call alone. -/
theorem in_base_set_spec (g : SystemGraph) (s : SetId) :
    (s.isSystemType = true → g.in_base_set s = .error .systemTypeSetAsBaseSet)
  ∧ (s.isSystemType = false → s.isBase = false →
      g.in_base_set s = .error .normalSetViaInBaseSet)
  ∧ (s.isSystemType = false → s.isBase = true →
      g.in_base_set s = .ok (g.mapInfo fun i => { i with baseSet := some s }))
  ∧ ((∃ e, g.in_base_set s = .error e) ↔ ¬(s.isBase = true ∧ s.isSystemType = false))
  ∧ (∀ s2 : SetId,
      ((g.in_base_set s).bind fun g' => g'.in_base_set s2) = g.in_base_set s2
        ∨ ∃ e, g.in_base_set s = .error e) := by
  refine ⟨?_, ?_, ?_, ?_, ?_⟩
  · intro h; simp [SystemGraph.in_base_set, h]
  · intro h1 h2; simp [SystemGraph.in_base_set, SystemGraph.set_base_set, h1, h2]
  · intro h1 h2; simp [SystemGraph.in_base_set, SystemGraph.set_base_set, h1, h2]
  · simp only [SystemGraph.in_base_set]
    cases h1 : s.isSystemType <;> cases h2 : s.isBase <;> simp
  · intro s2
    by_cases h1 : s.isSystemType = true
    · right; simp [SystemGraph.in_base_set, h1]
    · by_cases h2 : s.isBase = true
      · left
        simp only [Bool.not_eq_true] at h1
        simp only [SystemGraph.in_base_set, SystemGraph.set_base_set, h1, h2]
        cases h3 : s2.isSystemType <;> cases h4 : s2.isBase <;>
          cases g <;> simp [SystemGraph.mapInfo, Except.bind]
      · right
        simp only [Bool.not_eq_true] at h1 h2
        simp [SystemGraph.in_base_set, h1, h2]

/-- Witness for `in_base_set_spec` at a concrete base, non-system-type
set identity and a concrete System node. -/
theorem in_base_set_spec_witness :
    SystemGraph.in_base_set (.system GraphInfo.system 0 []) ⟨0, false, true⟩
      = .ok (.system { GraphInfo.system with baseSet := some ⟨0, false, true⟩ } 0 []) :=
  (in_base_set_spec (.system GraphInfo.system 0 []) ⟨0, false, true⟩).2.2.1 rfl rfl

/-- C6: lifting a tuple (arity 0 through 15, the instantiation range of
`impl_system_graph_collection`) produces a Collection whose members are
the element-wise lifted elements in declaration order, with
`chained = false` and set-origin graph-info; the empty tuple yields a
member-less Collection and a one-element tuple a one-member Collection
rather than the bare lifted element. -/
theorem tuple_lift_spec (elems : List LiftExpr) (h : elems.length ≤ 15) :
    LiftExpr.into_graph (.tuple elems)
        = .collection GraphInfo.system_set (elems.map LiftExpr.into_graph) false
  ∧ LiftExpr.into_graph (.tuple ([] : List LiftExpr))
        = .collection GraphInfo.system_set [] false
  ∧ ∀ e : LiftExpr, LiftExpr.into_graph (.tuple [e])
        = .collection GraphInfo.system_set [e.into_graph] false :=
  ⟨by simp [LiftExpr.into_graph, intoGraphList_eq_map], rfl, fun e => rfl⟩

/-- Witness for `tuple_lift_spec` at the one-element tuple of a raw
work-unit function. -/
theorem tuple_lift_spec_witness :
    [LiftExpr.sysFn 0].length ≤ 15
  ∧ LiftExpr.into_graph (.tuple [.sysFn 0])
      = .collection GraphInfo.system_set [.system GraphInfo.system 0 []] false :=
  ⟨by decide, (tuple_lift_spec [.sysFn 0] (by decide)).1⟩

/-- C1: on the Collection lifted from a tuple holding a system, a
nested chained Collection (with a system and a named-set member) and an
AnonymousSet, the graph-level `distributive_run_if` appends exactly one
copy of the send-safe condition to each transitive non-Collection
descendant — the AnonymousSet's own list, not its members' — and stores
nothing on either Collection; but `SystemConfigs::distributive_run_if`
(config.rs:495-497), which delegates to `run_if`, panics on the very
same Collection input. -/
theorem distributive_run_if_configs_divergence :
    SystemGraph.distributive_run_if
        (.collection GraphInfo.system_set
          [.system GraphInfo.system 0 [],
           .collection GraphInfo.system_set
             [.system GraphInfo.system 1 [],
              .set GraphInfo.system_set ⟨3, false, false⟩ []] true,
           .anonymousSet GraphInfo.system_set
             [.system GraphInfo.system 2 []] false []] false)
        ⟨7, true⟩
      = .ok (.collection GraphInfo.system_set
          [.system GraphInfo.system 0 [⟨7, true⟩],
           .collection GraphInfo.system_set
             [.system GraphInfo.system 1 [⟨7, true⟩],
              .set GraphInfo.system_set ⟨3, false, false⟩ [⟨7, true⟩]] true,
           .anonymousSet GraphInfo.system_set
             [.system GraphInfo.system 2 []] false [⟨7, true⟩]] false)
  ∧ SystemConfigs.distributive_run_if
        (.collection GraphInfo.system_set
          [.system GraphInfo.system 0 [],
           .collection GraphInfo.system_set
             [.system GraphInfo.system 1 [],
              .set GraphInfo.system_set ⟨3, false, false⟩ []] true,
           .anonymousSet GraphInfo.system_set
             [.system GraphInfo.system 2 []] false []] false)
        ⟨7, true⟩
      = .error .runIfOnCollection :=
  ⟨rfl, rfl⟩

/-! ### Helper lemmas for the ambiguity state machine (C3) -/

theorem in_set_ok (g p g' : SystemGraph) (h : g.in_set p = .ok g') :
    g' = g.mapInfo fun i => { i with sets := i.sets ++ [p] } := by
  simp only [SystemGraph.in_set] at h
  split at h
  · exact Except.noConfusion h
  split at h
  · exact Except.noConfusion h
  split at h
  · exact Except.noConfusion h
  split at h
  · exact Except.noConfusion h
  · injection h with h
    exact h.symm

theorem run_if_ok_info (g : SystemGraph) (c : Cond) (g' : SystemGraph)
    (h : g.run_if c = .ok g') : g'.info = g.info := by
  cases hs : c.isSend <;>
    cases g <;>
      simp [SystemGraph.run_if, new_condition, hs, Except.map] at h <;>
        simp [← h, SystemGraph.info]

theorem distributive_run_if_ok_info (g : SystemGraph) (c : Cond)
    (g' : SystemGraph) (h : g.distributive_run_if c = .ok g') :
    g'.info = g.info := by
  cases g <;> simp [SystemGraph.distributive_run_if] at h
  case collection i m ch =>
    rw [SystemGraph.distribute_run_condition] at h
    cases hd : SystemGraph.distributeList m c <;> rw [hd] at h <;>
      simp [Except.map] at h
    simp [← h, SystemGraph.info]

theorem chain_ok_info (g g' : SystemGraph) (h : g.chain = .ok g') :
    g'.info = g.info := by
  cases g <;> simp [SystemGraph.chain] at h <;> simp [← h, SystemGraph.info]

/-- C3 counterexample: a System node whose ambiguity state is IgnoreAll,
after the builder verb `into_set`, becomes a node whose own ambiguity
state is Check, and a further `ambiguous_with` then records the set —
so a sequence of builder verbs does change the state away from
IgnoreAll, refuting the claim's universal "no sequence of builder verbs
ever changes it". -/
theorem ignoreAll_escape_counterexample :
    (SystemGraph.system ⟨[], none, [], .ignoreAll, true⟩ 0 []).info.ambiguousWith
        = .ignoreAll
  ∧ applyVerb (.system ⟨[], none, [], .ignoreAll, true⟩ 0 []) .into_set
      = .ok (.anonymousSet GraphInfo.system_set
          [.system ⟨[], none, [], .ignoreAll, true⟩ 0 []] false [])
  ∧ (SystemGraph.anonymousSet GraphInfo.system_set
        [.system ⟨[], none, [], .ignoreAll, true⟩ 0 []] false []).info.ambiguousWith
      = .check
  ∧ ((SystemGraph.anonymousSet GraphInfo.system_set
        [.system ⟨[], none, [], .ignoreAll, true⟩ 0 []] false []).ambiguous_with
          ⟨5, false, false⟩).info.ambiguousWith
      = .ignoreWithSet [⟨5, false, false⟩]
  ∧ Ambiguity.check ≠ Ambiguity.ignoreAll :=
  ⟨rfl, rfl, rfl, rfl, by decide⟩

/-- C3 (amended): `ambiguous_with` maps Check to IgnoreWithSet([s]),
appends `s` at the end of an IgnoreWithSet(xs) state, and is a no-op on
an IgnoreAll node; `ambiguous_with_all` unconditionally sets IgnoreAll
and is idempotent; once a node's state is IgnoreAll, every builder verb
other than `into_set` returns (when it does not panic) a node still in
IgnoreAll, and `into_set` on a Collection also preserves IgnoreAll —
only `into_set` on a System escapes, by wrapping the node (whose record,
kept intact on the sole member, retains IgnoreAll) in a fresh set-origin
record that restarts at Check. -/
theorem ambiguous_with_transitions (s : SetId) (g : SystemGraph) :
    (g.info.ambiguousWith = .check →
      (g.ambiguous_with s).info.ambiguousWith = .ignoreWithSet [s])
  ∧ (∀ xs, g.info.ambiguousWith = .ignoreWithSet xs →
      (g.ambiguous_with s).info.ambiguousWith = .ignoreWithSet (xs ++ [s]))
  ∧ (g.info.ambiguousWith = .ignoreAll → g.ambiguous_with s = g)
  ∧ g.ambiguous_with_all.info.ambiguousWith = .ignoreAll
  ∧ g.ambiguous_with_all.ambiguous_with_all = g.ambiguous_with_all
  ∧ (∀ (v : Verb) (g' : SystemGraph), g.info.ambiguousWith = .ignoreAll →
      v ≠ .into_set → applyVerb g v = .ok g' →
      g'.info.ambiguousWith = .ignoreAll)
  ∧ (∀ (i : GraphInfo) (m : List SystemGraph) (ch : Bool),
      g = .collection i m ch → g.info.ambiguousWith = .ignoreAll →
      g.into_set = .ok (.anonymousSet i m ch []) ∧ i.ambiguousWith = .ignoreAll)
  ∧ (∀ (i : GraphInfo) (sy : Nat) (conds : List Cond), g = .system i sy conds →
      g.into_set = .ok (.anonymousSet GraphInfo.system_set [g] false [])) := by
  refine ⟨?_, ?_, ?_, ?_, ?_, ?_, ?_, ?_⟩
  · intro h
    cases g <;>
      simp_all [SystemGraph.ambiguous_with, SystemGraph.mapInfo,
        SystemGraph.info, ambiguous_with_info]
  · intro xs h
    cases g <;>
      simp_all [SystemGraph.ambiguous_with, SystemGraph.mapInfo,
        SystemGraph.info, ambiguous_with_info]
  · intro h
    cases g <;>
      simp_all [SystemGraph.ambiguous_with, SystemGraph.mapInfo,
        SystemGraph.info, ambiguous_with_info]
  · cases g <;> rfl
  · cases g <;> rfl
  · intro v g' hAmb hv happ
    cases v with
    | before dep =>
        simp only [applyVerb, Except.ok.injEq] at happ
        rw [← happ]
        simpa [SystemGraph.before, SystemGraph.insert_dependency, info_mapInfo]
          using hAmb
    | after dep =>
        simp only [applyVerb, Except.ok.injEq] at happ
        rw [← happ]
        simpa [SystemGraph.after, SystemGraph.insert_dependency, info_mapInfo]
          using hAmb
    | in_set parent =>
        have := in_set_ok g parent g' happ
        rw [this]
        simpa [info_mapInfo] using hAmb
    | in_base_set s2 =>
        simp only [applyVerb, SystemGraph.in_base_set] at happ
        split at happ
        · exact Except.noConfusion happ
        split at happ
        · exact Except.noConfusion happ
        · injection happ with happ
          rw [← happ]
          simpa [SystemGraph.set_base_set, info_mapInfo] using hAmb
    | in_default_base_set =>
        simp only [applyVerb, Except.ok.injEq] at happ
        rw [← happ]
        simpa [SystemGraph.in_default_base_set, info_mapInfo] using hAmb
    | no_default_base_set =>
        simp only [applyVerb, Except.ok.injEq] at happ
        rw [← happ]
        simpa [SystemGraph.no_default_base_set, info_mapInfo] using hAmb
    | run_if c =>
        have := run_if_ok_info g c g' happ
        rw [this]; exact hAmb
    | distributive_run_if c =>
        have := distributive_run_if_ok_info g c g' happ
        rw [this]; exact hAmb
    | ambiguous_with s2 =>
        simp only [applyVerb, Except.ok.injEq] at happ
        rw [← happ]
        simp [SystemGraph.ambiguous_with, info_mapInfo, ambiguous_with_info, hAmb]
    | ambiguous_with_all =>
        simp only [applyVerb, Except.ok.injEq] at happ
        rw [← happ]
        simp [SystemGraph.ambiguous_with_all, info_mapInfo]
    | chain =>
        have := chain_ok_info g g' happ
        rw [this]; exact hAmb
    | into_set => exact absurd rfl hv
  · intro i m ch hg hAmb
    subst hg
    exact ⟨rfl, by simpa [SystemGraph.info] using hAmb⟩
  · intro i sy conds hg
    subst hg
    rfl

/-- Witness for `ambiguous_with_transitions`: on a concrete IgnoreAll
Set node, `ambiguous_with` is a no-op. -/
theorem ambiguous_with_transitions_witness :
    (SystemGraph.set ⟨[], none, [], .ignoreAll, false⟩ ⟨0, false, false⟩ []).ambiguous_with
        ⟨1, false, false⟩
      = .set ⟨[], none, [], .ignoreAll, false⟩ ⟨0, false, false⟩ [] :=
  (ambiguous_with_transitions ⟨1, false, false⟩
    (.set ⟨[], none, [], .ignoreAll, false⟩ ⟨0, false, false⟩ [])).2.2.1 rfl

end BevySchedule
